import Mathlib

/-
Shallow embedding of `enode/deployment-feedback-action` (src/index.js).

The repository is a GitHub Action that, per deployment environment, decides
whether a candidate release version will replace the image currently running
there, renders a textual summary, posts it to open pull requests targeting
`main`, and exposes the result array as a run output.

Pure string manipulation and the decision logic are translated directly from
the JavaScript source.  External I/O (the AWS ECS lookup inside
`getCurrentImage`, the GitHub API calls) is modelled by oracles passed in as
function arguments: the ECS lookup oracle yields, per environment, either the
container image reference string the source would extract (`cdx.image`) or a
thrown error; the PR-discovery oracle yields the commit's associated pull
requests as data.  The `semver` npm package is an external library; its
`parse` and `satisfies` entry points are modelled below following that
library's documented semantics (strict grammar, tilde/caret desugaring with
the `-0` upper bound, and the prerelease-exclusion rule of range testing).
-/

namespace DeploymentFeedback

/-! ### JavaScript string primitives used by the source -/

/-- Splitting a character list at a separator, accumulator style.  Mirrors
JavaScript `String.prototype.split` with a single-character separator:
`"a:b:c".split(":") = ["a","b","c"]`, `"".split(":") = [""]`. -/
def splitOnCharAux (sep : Char) : List Char → List Char → List (List Char)
  | [], acc => [acc.reverse]
  | c :: cs, acc =>
      if c = sep then acc.reverse :: splitOnCharAux sep cs []
      else splitOnCharAux sep cs (c :: acc)

/-- JavaScript `s.split(sep)` for a one-character separator. -/
def splitOnChar (s : String) (sep : Char) : List String :=
  (splitOnCharAux sep s.data []).map String.mk

/-- Replace the first `'-'` by `'+'` in a character list.  Mirrors the
JavaScript call `releaseVersion.replace("-", "+")` (string patterns replace
only the first occurrence). -/
def replaceFirstChar : List Char → List Char
  | [] => []
  | c :: cs => if c = '-' then '+' :: cs else c :: replaceFirstChar cs

/-- src/index.js line 108: `const tagAsBuild = releaseVersion.replace("-", "+")`. -/
def jsReplaceFirst (s : String) : String :=
  String.mk (replaceFirstChar s.data)

/-- JavaScript coercion of a possibly-`undefined` string into a string, as
performed by template literals and `String(...)`: `undefined` prints as
`"undefined"`. -/
def showJS : Option String → String
  | some s => s
  | none => "undefined"

/-! ### Model of the external `semver` npm library

Only the two entry points the source uses are needed: `semver.parse` and
`semver.satisfies`.  A parsed version is major/minor/patch plus prerelease
and build identifier lists; ranges of the shape `<op><version>` desugar as in
node-semver (tilde and caret produce an upper bound carrying prerelease
`-0`), and `satisfies` applies the default prerelease-exclusion rule. -/

structure SemVer where
  major : Nat
  minor : Nat
  patch : Nat
  prerelease : List String
  build : List String
deriving DecidableEq

/-- A numeric identifier may not carry a leading zero (`"01"` is invalid). -/
def noLeadingZero : List Char → Bool
  | '0' :: _ :: _ => false
  | _ => true

/-- Numeric identifier of the semver grammar: nonempty digits, no leading zero. -/
def isNumericIdent (l : List Char) : Bool :=
  !l.isEmpty && l.all Char.isDigit && noLeadingZero l

/-- Decimal value of a digit list. -/
def natOfDigits (l : List Char) : Nat :=
  l.foldl (fun n c => n * 10 + (c.toNat - '0'.toNat)) 0

/-- Characters allowed in prerelease/build identifiers. -/
def isAlphanumHyphen (c : Char) : Bool :=
  c.isAlphanum || c = '-'

/-- Prerelease identifier: nonempty, alphanumerics and hyphens, and if purely
numeric then without a leading zero. -/
def isPreIdent (l : List Char) : Bool :=
  !l.isEmpty && l.all isAlphanumHyphen && (!l.all Char.isDigit || noLeadingZero l)

/-- Build identifier: nonempty, alphanumerics and hyphens. -/
def isBuildIdent (l : List Char) : Bool :=
  !l.isEmpty && l.all isAlphanumHyphen

/-- Split a character list at the first occurrence of `sep`, if any. -/
def splitFirstAux (sep : Char) : List Char → Option (List Char × List Char)
  | [] => none
  | c :: cs =>
      if c = sep then some ([], cs)
      else (splitFirstAux sep cs).map (fun p => (c :: p.1, p.2))

/-- Model of `semver.parse` (strict mode): an optional leading `v`, a
`major.minor.patch` core of numeric identifiers, an optional `-prerelease`
(dot-separated identifiers) and an optional `+build`.  Returns `none` exactly
when node-semver returns `null`. -/
def SemVer.parse (s : String) : Option SemVer :=
  let l := match s.data with
    | 'v' :: rest => rest
    | other => other
  let (corePre, buildPart) := match splitFirstAux '+' l with
    | none => (l, none)
    | some (a, b) => (a, some b)
  let (core, prePart) := match splitFirstAux '-' corePre with
    | none => (corePre, none)
    | some (a, b) => (a, some b)
  match splitOnCharAux '.' core [] with
  | [ma, mi, pa] =>
      if isNumericIdent ma && isNumericIdent mi && isNumericIdent pa then
        let preIds := match prePart with
          | none => []
          | some p => splitOnCharAux '.' p []
        let buildIds := match buildPart with
          | none => []
          | some b => splitOnCharAux '.' b []
        if (match prePart with
              | none => true
              | some p => (splitOnCharAux '.' p []).all isPreIdent)
            && (match buildPart with
              | none => true
              | some b => (splitOnCharAux '.' b []).all isBuildIdent) then
          some { major := natOfDigits ma
                 minor := natOfDigits mi
                 patch := natOfDigits pa
                 prerelease := preIds.map String.mk
                 build := buildIds.map String.mk }
        else none
      else none
  | _ => none

/-- Lexicographic comparison of character lists (JavaScript string `<`). -/
def compareCharList : List Char → List Char → Ordering
  | [], [] => Ordering.eq
  | [], _ :: _ => Ordering.lt
  | _ :: _, [] => Ordering.gt
  | a :: as, b :: bs => (compare a b).then (compareCharList as bs)

/-- Purely numeric identifier test used by node-semver's
`compareIdentifiers` (`/^[0-9]+$/`). -/
def isNumericStr (l : List Char) : Bool :=
  !l.isEmpty && l.all Char.isDigit

/-- node-semver `compareIdentifiers`: numeric identifiers compare
numerically, a numeric identifier is below any alphanumeric one, otherwise
string comparison. -/
def compareIdents (a b : String) : Ordering :=
  if isNumericStr a.data && isNumericStr b.data then
    compare (natOfDigits a.data) (natOfDigits b.data)
  else if isNumericStr a.data then Ordering.lt
  else if isNumericStr b.data then Ordering.gt
  else compareCharList a.data b.data

/-- Pairwise comparison of prerelease identifier lists; a list that runs out
first is smaller. -/
def comparePreIds : List String → List String → Ordering
  | [], [] => Ordering.eq
  | [], _ :: _ => Ordering.lt
  | _ :: _, [] => Ordering.gt
  | a :: as, b :: bs => (compareIdents a b).then (comparePreIds as bs)

/-- Prerelease comparison: a version without prerelease is above one with. -/
def SemVer.comparePre (a b : SemVer) : Ordering :=
  match a.prerelease, b.prerelease with
  | [], [] => Ordering.eq
  | [], _ :: _ => Ordering.gt
  | _ :: _, [] => Ordering.lt
  | as, bs => comparePreIds as bs

/-- Comparison of the major.minor.patch core. -/
def SemVer.compareMain (a b : SemVer) : Ordering :=
  (compare a.major b.major).then
    ((compare a.minor b.minor).then (compare a.patch b.patch))

/-- node-semver `compare`: core first, then prerelease; build metadata is
ignored. -/
def SemVer.cmp (a b : SemVer) : Ordering :=
  (a.compareMain b).then (a.comparePre b)

/-- Comparator operators of a simple range. -/
inductive Op where
  | lt
  | le
  | gt
  | ge
  | eq
deriving DecidableEq

structure Comparator where
  op : Op
  ver : SemVer
deriving DecidableEq

/-- Does an ordering outcome satisfy a comparator operator? -/
def opTest : Op → Ordering → Bool
  | Op.lt, o => o = Ordering.lt
  | Op.le, o => !(o = Ordering.gt)
  | Op.gt, o => o = Ordering.gt
  | Op.ge, o => !(o = Ordering.lt)
  | Op.eq, o => o = Ordering.eq

/-- Test one comparator against a version. -/
def testCmp (v : SemVer) (c : Comparator) : Bool :=
  opTest c.op (SemVer.cmp v c.ver)

/-- node-semver tilde desugaring: `~M.m.p` is `>=M.m.p <M.(m+1).0-0`. -/
def tildeDesugar (b : SemVer) : List Comparator :=
  [⟨Op.ge, b⟩,
   ⟨Op.lt, { major := b.major, minor := b.minor + 1, patch := 0,
             prerelease := ["0"], build := [] }⟩]

/-- node-semver caret desugaring: `^M.m.p` is `>=M.m.p <(M+1).0.0-0` for
`M > 0`, with the usual tightening for `0.m.p` and `0.0.p`. -/
def caretDesugar (b : SemVer) : List Comparator :=
  if b.major > 0 then
    [⟨Op.ge, b⟩,
     ⟨Op.lt, { major := b.major + 1, minor := 0, patch := 0,
               prerelease := ["0"], build := [] }⟩]
  else if b.minor > 0 then
    [⟨Op.ge, b⟩,
     ⟨Op.lt, { major := 0, minor := b.minor + 1, patch := 0,
               prerelease := ["0"], build := [] }⟩]
  else
    [⟨Op.ge, b⟩,
     ⟨Op.lt, { major := 0, minor := 0, patch := b.patch + 1,
               prerelease := ["0"], build := [] }⟩]

/-- Parse a simple range string `<op><version>` into its comparator set;
`none` models a range node-semver rejects. -/
def parseRange (r : String) : Option (List Comparator) :=
  match r.data with
  | '>' :: '=' :: rest => (SemVer.parse (String.mk rest)).map (fun b => [⟨Op.ge, b⟩])
  | '<' :: '=' :: rest => (SemVer.parse (String.mk rest)).map (fun b => [⟨Op.le, b⟩])
  | '>' :: rest => (SemVer.parse (String.mk rest)).map (fun b => [⟨Op.gt, b⟩])
  | '<' :: rest => (SemVer.parse (String.mk rest)).map (fun b => [⟨Op.lt, b⟩])
  | '=' :: rest => (SemVer.parse (String.mk rest)).map (fun b => [⟨Op.eq, b⟩])
  | '^' :: rest => (SemVer.parse (String.mk rest)).map caretDesugar
  | '~' :: rest => (SemVer.parse (String.mk rest)).map tildeDesugar
  | _ => (SemVer.parse r).map (fun b => [⟨Op.eq, b⟩])

/-- Same major.minor.patch core. -/
def sameMMP (a b : SemVer) : Bool :=
  a.major = b.major && a.minor = b.minor && a.patch = b.patch

/-- node-semver `Range.test`: every comparator holds, and a prerelease
version is admitted only if some comparator mentions a prerelease at the same
core (default `includePrerelease = false`). -/
def testSet (cs : List Comparator) (v : SemVer) : Bool :=
  cs.all (testCmp v) &&
    (v.prerelease.isEmpty ||
      cs.any (fun c => !c.ver.prerelease.isEmpty && sameMMP c.ver v))

/-- Model of `semver.satisfies(version, range)`: `false` whenever either side
fails to parse, otherwise the range test. -/
def satisfies (version range : String) : Bool :=
  match SemVer.parse version, parseRange range with
  | some v, some cs => testSet cs v
  | _, _ => false

/-! ### Version policy table and the deployment gate (src/index.js 12-16, 101-114) -/

/-- src/index.js lines 12-16: the `ENV_VERSION_COMPARATOR` object, as an
association list in its insertion order. -/
def ENV_VERSION_COMPARATOR : List (String × String) :=
  [("dev", ">="), ("sandbox", "^"), ("production", "~")]

/-- JavaScript property access `table[key]` on an object literal modelled as
an association list: `undefined` when the key is absent. -/
def lookupStr {α : Type} : List (String × α) → String → Option α
  | [], _ => none
  | (k, v) :: rest, key => if k = key then some v else lookupStr rest key

/-- src/index.js line 112: the regular expression test `/^latest/.test(t)`. -/
def startsWithLatest (t : String) : Bool :=
  match t.data with
  | 'l' :: 'a' :: 't' :: 'e' :: 's' :: 't' :: _ => true
  | _ => false

/-- src/index.js lines 101-114, the per-environment decision:

```js
const isCurrentImageSemver = semver.parse(currentImageTag);
const semverRange = `${versionComparator}${currentImageTag}`;
const tagAsBuild = releaseVersion.replace("-", "+");
if (isCurrentImageSemver && semver.satisfies(tagAsBuild, semverRange)) {
  willBeReplaced = true;
} else if (/^latest/.test(currentImageTag)) {
  willBeReplaced = true;
}
```

starting from `willBeReplaced = false`. -/
def evalGate (versionComparator currentImageTag releaseVersion : String) : Bool :=
  let isCurrentImageSemver := (SemVer.parse currentImageTag).isSome
  let semverRange := versionComparator ++ currentImageTag
  let tagAsBuild := jsReplaceFirst releaseVersion
  if isCurrentImageSemver && satisfies tagAsBuild semverRange then true
  else if startsWithLatest currentImageTag then true
  else false

/-! ### Orchestration: `deploymentFeedback` (src/index.js 52-129) -/

/-- One environment's entry of the `ECS` object (src/index.js 67-80). -/
structure EcsCreds where
  key : String
  secret : String
deriving DecidableEq

/-- The options object destructured at the top of `deploymentFeedback`.
`core.getInput` yields `""` for an absent action input, so the credential
fields are plain strings; `repoName` comes from `repository.split("/")[1]`
in `run` and may be `undefined`.  `repoName`, `clusterName` and
`serviceName` are only passed on to the external ECS lookup. -/
structure Opts where
  releaseVersion : String
  repoName : Option String
  clusterName : String
  serviceName : String
  devEcsKey : String
  devEcsSecret : String
  sandboxEcsKey : String
  sandboxEcsSecret : String
  productionEcsKey : String
  productionEcsSecret : String
deriving DecidableEq

/-- src/index.js lines 67-80: the `ECS` object literal.  Note that all three
keys are always present, each bound to a fresh object, whatever the
credential strings contain. -/
def ecsTable (o : Opts) : List (String × EcsCreds) :=
  [("dev", ⟨o.devEcsKey, o.devEcsSecret⟩),
   ("sandbox", ⟨o.sandboxEcsKey, o.sandboxEcsSecret⟩),
   ("production", ⟨o.productionEcsKey, o.productionEcsSecret⟩)]

/-- src/index.js lines 82-85:

```js
const envs = Object.keys(ENV_VERSION_COMPARATOR).filter((env) => {
  const hasCredentials = !!ECS[env];
  return hasCredentials;
});
```

`!!x` is truthiness: `false` for `undefined`, `true` for any object. -/
def activeEnvs (o : Opts) : List String :=
  (ENV_VERSION_COMPARATOR.map Prod.fst).filter (fun env =>
    let hasCredentials := (lookupStr (ecsTable o) env).isSome
    hasCredentials)

/-- The element returned per environment by the `envs.map` callback
(src/index.js 116-121); `undefined` (here `none`) when the lookup threw. -/
structure GateResult where
  env : String
  currentImageTag : Option String
  releaseVersion : String
  willBeReplaced : Bool
deriving DecidableEq

/-- src/index.js line 48, the pure tail of `getCurrentImage`:
`currentImage.split(":")[1]` — `undefined` when the reference has no `:`. -/
def extractTag (image : String) : Option String :=
  (splitOnChar image ':')[1]?

/-- The body of the `envs.map` callback (src/index.js 88-125) for one
environment.  `fetch` is the oracle for the AWS portion of
`getCurrentImage`: it yields the container image reference string the source
would select (`cdx.image`), or the error thrown anywhere inside the `try`
block.  On a throw the `catch` only logs, so the callback returns
`undefined` (`none`).  A tag of `undefined` flows through
`semver.parse` (`null`), string concatenation and `/^latest/.test` as the
string `"undefined"`, which `evalGate` reproduces via `Option.getD`. -/
def envResult (o : Opts) (fetch : String → Except String String)
    (env : String) : Option GateResult :=
  match fetch env with
  | Except.error _ => none
  | Except.ok imageStr =>
      let currentImageTag := extractTag imageStr
      let versionComparator := (lookupStr ENV_VERSION_COMPARATOR env).getD "undefined"
      some { env := env
             currentImageTag := currentImageTag
             releaseVersion := o.releaseVersion
             willBeReplaced :=
               evalGate versionComparator (currentImageTag.getD "undefined")
                 o.releaseVersion }

/-- src/index.js lines 87-128: `Promise.all(envs.map(...))`.  `Promise.all`
resolves to the results in the order of the mapped array, independent of
completion order, which the functional `map` captures. -/
def deploymentFeedback (o : Opts) (fetch : String → Except String String) :
    List (Option GateResult) :=
  (activeEnvs o).map (envResult o fetch)

/-! ### PR discovery (src/index.js 147-166) -/

/-- The fields of a pull request used by `findPullRequest`. -/
structure PullReq where
  number : Nat
  state : String
  baseRef : String
deriving DecidableEq

/-- A JavaScript value as scrutinised by `if (mainPrs)`: either an array or
`undefined`. -/
inductive JsValue where
  | array (prs : List PullReq)
  | undefined
deriving DecidableEq

/-- JavaScript truthiness of such a value: every object (any array, even
empty) is truthy; `undefined` is falsy. -/
def JsValue.truthy : JsValue → Bool
  | JsValue.array _ => true
  | JsValue.undefined => false

/-- src/index.js lines 147-166 with the GitHub API response supplied as
data: filter the commit's pull requests to open ones based on `main`, then
the `if (mainPrs)` test on the (always truthy) filtered array. -/
def findPullRequest (relatedPulls : List PullReq) : List PullReq :=
  let openPrs := relatedPulls.filter (fun pr => pr.state = "open")
  let mainPrs := openPrs.filter (fun pr => pr.baseRef = "main")
  if (JsValue.array mainPrs).truthy then mainPrs else []

/-! ### Summary rendering and `run` (src/index.js 168-228) -/

/-- One iteration of `images.map` at src/index.js 203-209.  When the element
is `undefined` (a failed lookup), reading `i.willBeReplaced` throws a
`TypeError`, modelled as the error case. -/
def summaryLine : Option GateResult → Except String String
  | none => Except.error "Cannot read properties of undefined (reading willBeReplaced)"
  | some i =>
      if i.willBeReplaced then
        Except.ok ("✅ **" ++ i.env ++ "** will be updated, currently running "
          ++ showJS i.currentImageTag)
      else
        Except.ok ("❌ **" ++ i.env ++ "** will not be updated, currently running "
          ++ showJS i.currentImageTag)

/-- `images.map` over the summary-line callback: the callback runs left to
right and the first throw aborts the whole map. -/
def renderSummary : List (Option GateResult) → Except String (List String)
  | [] => Except.ok []
  | i :: rest =>
      match summaryLine i with
      | Except.error e => Except.error e
      | Except.ok line =>
          match renderSummary rest with
          | Except.error e => Except.error e
          | Except.ok lines => Except.ok (line :: lines)

/-- src/index.js lines 211-215: the comment body template literal, with the
timestamp `new Date().toISOString()` supplied as `now`. -/
def renderBody (releaseVersion now : String) (summary : List String) : String :=
  "Continuous Deployment Summary for **v" ++ releaseVersion ++ "**:\n\n"
    ++ String.intercalate "\n" summary
    ++ "\n\n_Information valid as of " ++ now ++ "_"

/-- The action inputs read by `run` via `core.getInput` (each `""` when not
supplied). -/
structure RunInputs where
  releaseVersion : String
  repository : String
  clusterName : String
  serviceName : String
  devEcsKey : String
  devEcsSecret : String
  sandboxEcsKey : String
  sandboxEcsSecret : String
  productionEcsKey : String
  productionEcsSecret : String
  token : String
  sha : String
deriving DecidableEq

/-- The options object `run` passes to `deploymentFeedback`
(src/index.js 190-201), with `repoName = repository.split("/")[1]`. -/
def runOpts (inp : RunInputs) : Opts :=
  { releaseVersion := inp.releaseVersion
    repoName := (splitOnChar inp.repository '/')[1]?
    clusterName := inp.clusterName
    serviceName := inp.serviceName
    devEcsKey := inp.devEcsKey
    devEcsSecret := inp.devEcsSecret
    sandboxEcsKey := inp.sandboxEcsKey
    sandboxEcsSecret := inp.sandboxEcsSecret
    productionEcsKey := inp.productionEcsKey
    productionEcsSecret := inp.productionEcsSecret }

/-- Observable outcome of one `run` invocation: the `core.setFailed`
message if the `catch` fired, the array passed to
`core.setOutput("images", JSON.stringify(...))` if that line was reached,
the comment body if it was built, and the numbers of the pull requests a
comment was attempted on. -/
structure RunOutcome where
  failed : Option String
  outputImages : Option (List (Option GateResult))
  body : Option String
  commentedPRs : List Nat
deriving DecidableEq

/-- src/index.js lines 168-228.  External effects are oracles: `fetch` as in
`deploymentFeedback`, `relatedPulls` the GitHub response consumed by
`findPullRequest`, `now` the timestamp.  Any exception inside the `try` —
in particular the `TypeError` thrown by the summary `map` on an `undefined`
image entry — reaches the `catch`, which calls `core.setFailed`; the
comment posting and `setOutput` lines are then never reached
(`createComment` failures themselves are caught inside `createComment` and
are not modelled as faults). -/
def run (inp : RunInputs) (fetch : String → Except String String)
    (relatedPulls : List PullReq) (now : String) : RunOutcome :=
  let images := deploymentFeedback (runOpts inp) fetch
  match renderSummary images with
  | Except.error e =>
      { failed := some e, outputImages := none, body := none, commentedPRs := [] }
  | Except.ok summary =>
      let body := renderBody inp.releaseVersion now summary
      let prs := findPullRequest relatedPulls
      { failed := none
        outputImages := some images
        body := some body
        commentedPRs := prs.map PullReq.number }

/-! ### Concrete demonstration data -/

/-- A fully-populated set of action inputs for concrete runs. -/
def demoInputs : RunInputs :=
  { releaseVersion := "2.4.2"
    repository := "enode/widgets"
    clusterName := "main"
    serviceName := "api"
    devEcsKey := "AKIA1"
    devEcsSecret := "s1"
    sandboxEcsKey := "AKIA2"
    sandboxEcsSecret := "s2"
    productionEcsKey := "AKIA3"
    productionEcsSecret := "s3"
    token := "t"
    sha := "deadbeef" }

/-- Lookup oracle where exactly the `dev` environment's ECS lookup throws. -/
def fetchDevFails : String → Except String String :=
  fun env =>
    if env = "dev" then Except.error "AccessDenied"
    else Except.ok "123.dkr.ecr.eu-north-1.amazonaws.com/widgets:2.4.1"

/-- Lookup oracle where exactly the `sandbox` environment's ECS lookup
throws. -/
def fetchSandboxFails : String → Except String String :=
  fun env =>
    if env = "sandbox" then Except.error "TimeoutError"
    else Except.ok "123.dkr.ecr.eu-north-1.amazonaws.com/widgets:2.4.1"

/-- A gate result used to exercise the renderer. -/
def demoResult : GateResult :=
  { env := "dev", currentImageTag := some "2.4.1", releaseVersion := "2.4.2",
    willBeReplaced := true }

/-! ### Helper lemmas -/

theorem replaceFirstChar_of_not_mem (l : List Char) (h : '-' ∉ l) :
    replaceFirstChar l = l := by
  induction l with
  | nil => rfl
  | cons c cs ih =>
      have hc : c ≠ '-' := fun he => h (he ▸ List.mem_cons_self c cs)
      have hcs : '-' ∉ cs := fun hm => h (List.mem_cons_of_mem c hm)
      simp [replaceFirstChar, hc, ih hcs]

theorem replaceFirstChar_append (x y : List Char) (h : '-' ∉ x) :
    replaceFirstChar (x ++ '-' :: y) = x ++ '+' :: y := by
  induction x with
  | nil => simp [replaceFirstChar]
  | cons c cs ih =>
      have hc : c ≠ '-' := fun he => h (he ▸ List.mem_cons_self c cs)
      have hcs : '-' ∉ cs := fun hm => h (List.mem_cons_of_mem c hm)
      simp [replaceFirstChar, hc, ih hcs]

theorem splitOnCharAux_of_not_mem (sep : Char) (a : List Char) :
    ∀ acc : List Char, sep ∉ a →
      splitOnCharAux sep a acc = [acc.reverse ++ a] := by
  induction a with
  | nil => intro acc _; simp [splitOnCharAux]
  | cons c cs ih =>
      intro acc h
      have hc : c ≠ sep := fun he => h (he ▸ List.mem_cons_self c cs)
      have hcs : sep ∉ cs := fun hm => h (List.mem_cons_of_mem c hm)
      simp [splitOnCharAux, hc, ih (c :: acc) hcs, List.append_assoc]

theorem splitOnCharAux_append (sep : Char) (a : List Char) :
    ∀ acc rest : List Char, sep ∉ a →
      splitOnCharAux sep (a ++ sep :: rest) acc
        = (acc.reverse ++ a) :: splitOnCharAux sep rest [] := by
  induction a with
  | nil => intro acc rest _; simp [splitOnCharAux]
  | cons c cs ih =>
      intro acc rest h
      have hc : c ≠ sep := fun he => h (he ▸ List.mem_cons_self c cs)
      have hcs : sep ∉ cs := fun hm => h (List.mem_cons_of_mem c hm)
      simp [splitOnCharAux, hc, ih (c :: acc) rest hcs, List.append_assoc]

theorem envResult_env (o : Opts) (fetch : String → Except String String)
    (env : String) (r : GateResult) (h : envResult o fetch env = some r) :
    r.env = env := by
  unfold envResult at h
  cases hf : fetch env with
  | error e => rw [hf] at h; simp at h
  | ok s =>
      rw [hf] at h
      simp only [Option.some.injEq] at h
      rw [← h]

theorem renderSummary_error_of_none_mem (images : List (Option GateResult))
    (h : none ∈ images) :
    renderSummary images
      = Except.error "Cannot read properties of undefined (reading willBeReplaced)" := by
  induction images with
  | nil => cases h
  | cons x rest ih =>
      rcases List.mem_cons.mp h with hx | hrest
      · rw [← hx]; rfl
      · cases x with
        | none => rfl
        | some r =>
            have hr := ih hrest
            cases hwr : r.willBeReplaced <;>
              simp [renderSummary, summaryLine, hwr, hr]

/-! ### Claims -/

/-- C1: for every environment of the policy table and all current tags and
candidate versions, the gate's `willBeReplaced` equals the logical OR of the
range predicate (tag parses as semver AND the `-`→`+` normalised candidate
satisfies the comparator++tag range) and the `latest`-prefix predicate; in
particular a tag that neither parses nor starts with `latest` yields
`false` for every policy and candidate. -/
theorem gate_is_or_of_independent_predicates :
    ∀ p ∈ ENV_VERSION_COMPARATOR, ∀ t v : String,
      (evalGate p.2 t v
        = (((SemVer.parse t).isSome && satisfies (jsReplaceFirst v) (p.2 ++ t))
            || startsWithLatest t))
      ∧ (SemVer.parse t = none → startsWithLatest t = false →
          evalGate p.2 t v = false) := by
  intro p _hp t v
  constructor
  · unfold evalGate
    cases h1 : (SemVer.parse t).isSome && satisfies (jsReplaceFirst v) (p.2 ++ t) <;>
      cases h2 : startsWithLatest t <;> simp [h1, h2]
  · intro hparse hlatest
    unfold evalGate
    simp [hparse, hlatest]

/-- Witness for C1 at the `dev` policy, the non-semver non-`latest` tag
`"abc123"` and candidate `"9.9.9"`. -/
theorem gate_is_or_of_independent_predicates_witness :
    evalGate ">=" "abc123" "9.9.9" = false :=
  (gate_is_or_of_independent_predicates ("dev", ">=") (by decide) "abc123"
    "9.9.9").2 (by decide) (by decide)

/-- C3 (code bug): the `hasCredentials` filter tests `!!ECS[env]`, and the
`ECS` object literal always carries all three keys, so the filter is
vacuous — every policy-table environment is iterated, looked up and placed
in the report whatever the credential inputs are (including empty
strings). -/
theorem credentials_filter_is_vacuous :
    ∀ o : Opts,
      activeEnvs o = ["dev", "sandbox", "production"]
      ∧ ∀ fetch : String → Except String String,
          deploymentFeedback o fetch
            = [envResult o fetch "dev", envResult o fetch "sandbox",
               envResult o fetch "production"] :=
  fun _ => ⟨rfl, fun _ => rfl⟩

/-- C4: the four concrete policy-table scenarios of the spec. -/
theorem concrete_gate_scenarios :
    lookupStr ENV_VERSION_COMPARATOR "dev" = some ">="
    ∧ lookupStr ENV_VERSION_COMPARATOR "sandbox" = some "^"
    ∧ lookupStr ENV_VERSION_COMPARATOR "production" = some "~"
    ∧ evalGate "~" "2.4.1" "2.4.2" = true
    ∧ evalGate "~" "2.4.1" "2.5.0" = false
    ∧ evalGate "^" "2.4.1" "3.0.0" = false
    ∧ evalGate ">=" "2.4.1" "1.9.9" = false := by
  decide

/-- C5: the normaliser rewrites exactly the first `-` to `+`: inputs with
no `-` are returned unchanged (hence it is idempotent there),
`"1.2.3-rc1"` maps to `"1.2.3+rc1"`, and occurrences after the first are
untouched. -/
theorem normalizer_first_dash_only :
    (∀ s : String, '-' ∉ s.data → jsReplaceFirst s = s)
    ∧ (∀ s : String, '-' ∉ s.data →
        jsReplaceFirst (jsReplaceFirst s) = jsReplaceFirst s)
    ∧ jsReplaceFirst "1.2.3-rc1" = "1.2.3+rc1"
    ∧ (∀ x y : List Char, '-' ∉ x →
        jsReplaceFirst (String.mk (x ++ '-' :: y)) = String.mk (x ++ '+' :: y)) := by
  have base : ∀ s : String, '-' ∉ s.data → jsReplaceFirst s = s := by
    intro s h
    show String.mk (replaceFirstChar s.data) = s
    rw [replaceFirstChar_of_not_mem s.data h]
  refine ⟨base, ?_, by decide, ?_⟩
  · intro s h
    rw [base s h]
    exact base s h
  · intro x y h
    show String.mk (replaceFirstChar (x ++ '-' :: y)) = String.mk (x ++ '+' :: y)
    rw [replaceFirstChar_append x y h]

/-- Witness for C5: a dash-free input is fixed, and with several dashes
only the first is rewritten. -/
theorem normalizer_first_dash_only_witness :
    jsReplaceFirst "2.4.2" = "2.4.2"
    ∧ jsReplaceFirst (String.mk (['a'] ++ '-' :: ['b', '-', 'c']))
        = String.mk (['a'] ++ '+' :: ['b', '-', 'c']) :=
  ⟨normalizer_first_dash_only.1 "2.4.2" (by decide),
   normalizer_first_dash_only.2.2.2 ['a'] ['b', '-', 'c'] (by decide)⟩

/-- C2 (code bug): with three active environments and exactly the `dev`
lookup throwing, `deploymentFeedback` itself still resolves with the other
two results present — but the summary `map` in `run` then reads
`willBeReplaced` off the `undefined` entry, throws a `TypeError`, and the
outer `catch` calls `core.setFailed`: the whole run fails, no summary is
rendered and no output is set. -/
theorem single_lookup_failure_fails_whole_run :
    deploymentFeedback (runOpts demoInputs) fetchDevFails
      = [none,
         some { env := "sandbox", currentImageTag := some "2.4.1",
                releaseVersion := "2.4.2", willBeReplaced := true },
         some { env := "production", currentImageTag := some "2.4.1",
                releaseVersion := "2.4.2", willBeReplaced := true }]
    ∧ (run demoInputs fetchDevFails [] "2024-05-01T00:00:00.000Z").failed
        = some "Cannot read properties of undefined (reading willBeReplaced)"
    ∧ (run demoInputs fetchDevFails [] "2024-05-01T00:00:00.000Z").outputImages = none
    ∧ (run demoInputs fetchDevFails [] "2024-05-01T00:00:00.000Z").body = none := by
  decide

/-- C6: the report has exactly one entry per active environment and entry
`i` corresponds to active environment `i` of the policy table, for every
assignment of lookup results to environments (`Promise.all` order is the
mapped-array order, not completion order). -/
theorem report_order_matches_policy_table :
    ∀ (o : Opts) (fetch : String → Except String String),
      (deploymentFeedback o fetch).length = (activeEnvs o).length
      ∧ ∀ (i : Nat) (r : GateResult),
          (deploymentFeedback o fetch)[i]? = some (some r) →
          (activeEnvs o)[i]? = some r.env := by
  intro o fetch
  refine ⟨by simp [deploymentFeedback], ?_⟩
  intro i r h
  rw [deploymentFeedback, List.getElem?_map] at h
  cases he : (activeEnvs o)[i]? with
  | none => rw [he] at h; simp at h
  | some env =>
      rw [he] at h
      have h2 : envResult o fetch env = some r := by simpa using h
      rw [envResult_env o fetch env r h2]

/-- Witness for C6: position 2 of the report corresponds to position 2 of
the policy table (`production`), under an assignment where the `dev`
lookup fails. -/
theorem report_order_matches_policy_table_witness :
    (activeEnvs (runOpts demoInputs))[2]?
      = some ({ env := "production", currentImageTag := some "2.4.1",
                releaseVersion := "2.4.2", willBeReplaced := true } : GateResult).env :=
  (report_order_matches_policy_table (runOpts demoInputs) fetchDevFails).2 2
    { env := "production", currentImageTag := some "2.4.1",
      releaseVersion := "2.4.2", willBeReplaced := true } (by decide)

/-- Counterexample to C7: on an image reference with two `:`, the code's
`split(":")[1]` yields only the segment up to the second `:`, not
everything after the first `:`. -/
theorem tag_extraction_counterexample :
    extractTag "a:b:c" = some "b" ∧ extractTag "a:b:c" ≠ some "b:c" := by
  decide

/-- C7 as amended: the extracted tag is the second `:`-separated segment —
the substring after the first `:` and before the next `:` (to the end of
the string when there is exactly one `:`); with no `:` there is no tag. -/
theorem tag_is_second_colon_segment :
    (∀ a : List Char, ':' ∉ a → extractTag (String.mk a) = none)
    ∧ (∀ a b : List Char, ':' ∉ a → ':' ∉ b →
        extractTag (String.mk (a ++ ':' :: b)) = some (String.mk b))
    ∧ (∀ a b c : List Char, ':' ∉ a → ':' ∉ b →
        extractTag (String.mk (a ++ ':' :: (b ++ ':' :: c)))
          = some (String.mk b)) := by
  refine ⟨?_, ?_, ?_⟩
  · intro a h
    show ((splitOnCharAux ':' a []).map String.mk)[1]? = none
    rw [splitOnCharAux_of_not_mem ':' a [] h]
    rfl
  · intro a b ha hb
    show ((splitOnCharAux ':' (a ++ ':' :: b) []).map String.mk)[1]?
      = some (String.mk b)
    rw [splitOnCharAux_append ':' a [] b ha,
        splitOnCharAux_of_not_mem ':' b [] hb]
    rfl
  · intro a b c ha hb
    show ((splitOnCharAux ':' (a ++ ':' :: (b ++ ':' :: c)) []).map String.mk)[1]?
      = some (String.mk b)
    rw [splitOnCharAux_append ':' a [] (b ++ ':' :: c) ha,
        splitOnCharAux_append ':' b [] c hb]
    simp

/-- Witness for the amended C7 on the reference `r:t:x`. -/
theorem tag_is_second_colon_segment_witness :
    extractTag (String.mk (['r'] ++ ':' :: (['t'] ++ ':' :: ['x'])))
      = some (String.mk ['t']) :=
  tag_is_second_colon_segment.2.2 ['r'] ['t'] ['x'] (by decide) (by decide)

/-- C8: when every report entry is a gate result, rendering succeeds and
produces exactly one line per result, whose glyph is chosen from
`willBeReplaced` alone and which names that result's environment and tag;
the body wraps the joined lines in the release-version header and the
timestamp footer. -/
theorem renderer_one_line_per_result :
    ∀ (images : List (Option GateResult)) (rv now : String),
      (∀ x ∈ images, x ≠ none) →
      ∃ lines : List String,
        renderSummary images = Except.ok lines
        ∧ lines.length = images.length
        ∧ (∀ (i : Nat) (r : GateResult), images[i]? = some (some r) →
            lines[i]? = some (if r.willBeReplaced
              then "✅ **" ++ r.env ++ "** will be updated, currently running "
                    ++ showJS r.currentImageTag
              else "❌ **" ++ r.env ++ "** will not be updated, currently running "
                    ++ showJS r.currentImageTag))
        ∧ renderBody rv now lines
            = "Continuous Deployment Summary for **v" ++ rv ++ "**:\n\n"
              ++ String.intercalate "\n" lines
              ++ "\n\n_Information valid as of " ++ now ++ "_" := by
  intro images rv now
  induction images with
  | nil =>
      intro _
      exact ⟨[], rfl, rfl, by intro i r h; simp at h, rfl⟩
  | cons x rest ih =>
      intro hall
      obtain ⟨r0, rfl⟩ : ∃ r0, x = some r0 := by
        cases x with
        | none => exact absurd rfl (hall none (List.mem_cons_self _ _))
        | some r0 => exact ⟨r0, rfl⟩
      obtain ⟨lines, hsum, hlen, hidx, _⟩ :=
        ih (fun y hy => hall y (List.mem_cons_of_mem _ hy))
      refine ⟨(if r0.willBeReplaced
          then "✅ **" ++ r0.env ++ "** will be updated, currently running "
                ++ showJS r0.currentImageTag
          else "❌ **" ++ r0.env ++ "** will not be updated, currently running "
                ++ showJS r0.currentImageTag) :: lines, ?_, ?_, ?_, rfl⟩
      · cases hw : r0.willBeReplaced <;>
          simp [renderSummary, summaryLine, hw, hsum]
      · simp [hlen]
      · intro i r h
        cases i with
        | zero =>
            simp only [List.getElem?_cons_zero, Option.some.injEq] at h
            subst h
            exact List.getElem?_cons_zero
        | succ n =>
            have := hidx n r (by simpa using h)
            simpa using this

/-- Witness for C8 on a one-result report. -/
theorem renderer_one_line_per_result_witness :
    ∃ lines : List String,
      renderSummary [some demoResult] = Except.ok lines
      ∧ lines.length = [some demoResult].length
      ∧ (∀ (i : Nat) (r : GateResult), [some demoResult][i]? = some (some r) →
          lines[i]? = some (if r.willBeReplaced
            then "✅ **" ++ r.env ++ "** will be updated, currently running "
                  ++ showJS r.currentImageTag
            else "❌ **" ++ r.env ++ "** will not be updated, currently running "
                  ++ showJS r.currentImageTag))
      ∧ renderBody "2.4.2" "2024-05-01T00:00:00.000Z" lines
          = "Continuous Deployment Summary for **v" ++ "2.4.2" ++ "**:\n\n"
            ++ String.intercalate "\n" lines
            ++ "\n\n_Information valid as of " ++ "2024-05-01T00:00:00.000Z" ++ "_" :=
  renderer_one_line_per_result [some demoResult] "2.4.2" "2024-05-01T00:00:00.000Z"
    (by decide)

/-- C9: PR discovery returns exactly the commit's pull requests that are
open and based on `main` (the empty list when none match), and the
`if (mainPrs)` guard is truthy for every array, so its `else` branch is
unreachable. -/
theorem pr_filter_and_dead_else_branch :
    (∀ relatedPulls : List PullReq,
        findPullRequest relatedPulls
          = (relatedPulls.filter (fun pr => pr.state = "open")).filter
              (fun pr => pr.baseRef = "main"))
    ∧ ∀ prs : List PullReq, (JsValue.array prs).truthy = true :=
  ⟨fun _ => rfl, fun _ => rfl⟩

/-- Counterexample to C10: with the `sandbox` lookup throwing, the report
does hold `undefined` at that position, but the run fails during summary
rendering before `core.setOutput` is reached, so there is no serialized
machine-readable output in which the entry could appear as `null`. -/
theorem serialized_output_counterexample :
    (deploymentFeedback (runOpts demoInputs) fetchSandboxFails)[1]? = some none
    ∧ (run demoInputs fetchSandboxFails [] "2024-05-02T00:00:00.000Z").outputImages
        = none := by
  decide

/-- C10 as amended: a throwing lookup leaves `undefined` (not a failure
marker) at that environment's report position and the length still equals
the number of active environments; but whenever any entry is `undefined`
the run fails with the `TypeError` from the summary `map` and never emits
the serialized output. -/
theorem undefined_entries_and_no_output :
    (∀ (o : Opts) (fetch : String → Except String String),
        (deploymentFeedback o fetch).length = (activeEnvs o).length)
    ∧ (∀ (o : Opts) (fetch : String → Except String String)
          (i : Nat) (env err : String),
        (activeEnvs o)[i]? = some env → fetch env = Except.error err →
        (deploymentFeedback o fetch)[i]? = some none)
    ∧ (∀ (inp : RunInputs) (fetch : String → Except String String)
          (pulls : List PullReq) (now : String),
        none ∈ deploymentFeedback (runOpts inp) fetch →
        (run inp fetch pulls now).failed
            = some "Cannot read properties of undefined (reading willBeReplaced)"
          ∧ (run inp fetch pulls now).outputImages = none
          ∧ (run inp fetch pulls now).body = none) := by
  refine ⟨?_, ?_, ?_⟩
  · intro o fetch
    simp [deploymentFeedback]
  · intro o fetch i env err he hf
    rw [deploymentFeedback, List.getElem?_map, he]
    simp [envResult, hf]
  · intro inp fetch pulls now hmem
    have herr := renderSummary_error_of_none_mem _ hmem
    simp [run, herr]

/-- Witness for the amended C10 with the `sandbox` lookup throwing. -/
theorem undefined_entries_and_no_output_witness :
    ((deploymentFeedback (runOpts demoInputs) fetchSandboxFails)[1]? = some none)
    ∧ ((run demoInputs fetchSandboxFails [] "2024-05-03T00:00:00.000Z").failed
          = some "Cannot read properties of undefined (reading willBeReplaced)"
        ∧ (run demoInputs fetchSandboxFails [] "2024-05-03T00:00:00.000Z").outputImages
            = none
        ∧ (run demoInputs fetchSandboxFails [] "2024-05-03T00:00:00.000Z").body
            = none) :=
  ⟨undefined_entries_and_no_output.2.1 (runOpts demoInputs) fetchSandboxFails 1
      "sandbox" "TimeoutError" (by decide) (by rfl),
   undefined_entries_and_no_output.2.2 demoInputs fetchSandboxFails []
      "2024-05-03T00:00:00.000Z" (by decide)⟩

end DeploymentFeedback
